import Mathlib

/-!
Verification development for the MindSync meeting-room application.

The definitions below are a shallow embedding of the TypeScript sources:
* `types.ts` (the data model: `Agent`, `Message`, `MeetingState`, ...),
* `services/geminiService.ts` (`callWithRetry`, `generateAgentThought`,
  `generateAgentSpeechStream`, ...),
* `App.tsx` (the session lifecycle and the auto-pilot turn scheduler:
  `startMeeting`, `addMessage`, `updateLastMessage`, `handleUserMessage`,
  `restoreSession`, `processNextTurn`).

External effects (the Gemini backend, `Math.random`, `Date.now`, timers,
`localStorage`) are modelled as explicit oracle inputs; state mutation is
modelled by explicit state passing.  JavaScript async generators become
lists of fragments, and rejected promises become `Except` errors.
-/

namespace MindSync

/-! ## Data model (types.ts) -/

/-- `Agent` from types.ts. -/
structure Agent where
  id : String
  name : String
  role : String
  personality : String
  avatarId : Nat
deriving DecidableEq, Repr

/-- The `type` tag of a transcript message (`'speech' | 'system'`). -/
inductive MsgType where
  | speech
  | system
deriving DecidableEq, Repr

/-- `Message` from types.ts.  `senderId` is `'user'`, `'system'`,
`'assistant'`, or an agent id. -/
structure Message where
  id : String
  senderId : String
  senderName : String
  content : String
  thought : Option String := none
  timestamp : Nat
  type : MsgType
deriving DecidableEq, Repr

/-- `AppStage` from types.ts. -/
inductive AppStage where
  | topic
  | roles
  | meeting
  | report
deriving DecidableEq, Repr

/-- `Language` from types.ts. -/
inductive Language where
  | en
  | zh
deriving DecidableEq, Repr

/-- `MeetingState` from types.ts. -/
structure MeetingState where
  topic : String
  agents : List Agent
  messages : List Message
  isActive : Bool
  isGenerating : Bool
  language : Language
deriving DecidableEq, Repr

/-! ## Generation service client (services/geminiService.ts) -/

/-- A JavaScript error thrown by a backend call.  `isRateLimit` captures the
test `error?.status === 429 || error?.code === 429 ||
error?.message?.includes('429') || error?.status === 'RESOURCE_EXHAUSTED'`
performed by `callWithRetry`; `tag` keeps distinct errors distinguishable. -/
structure GenError where
  isRateLimit : Bool
  tag : Nat
deriving DecidableEq, Repr

/-- Result of running `callWithRetry`: the final outcome, the list of
back-off waits (in milliseconds) that were performed, and how many times the
wrapped function was invoked. -/
structure RetryResult (A : Type) where
  result : Except GenError A
  waits : List Nat
  calls : Nat
deriving Repr

/-- `MAX_RETRIES` from geminiService.ts. -/
def MAX_RETRIES : Nat := 3

/-- `INITIAL_BACKOFF_MS` from geminiService.ts. -/
def INITIAL_BACKOFF_MS : Nat := 2000

/-- `callWithRetry` from geminiService.ts.  The wrapped async function is
modelled as `fn : Nat → Except GenError A`, giving the outcome of its
`attempt`-th invocation; `jitter attempt` models `Math.random() * 500` drawn
for that invocation (so `jitter attempt < 500`).  On a rate-limit error with
retries left it waits `delay + jitter` and recurses with `retries - 1` and
`delay * 2`; otherwise the error propagates. -/
def callWithRetry {A : Type} (fn : Nat → Except GenError A) (jitter : Nat → Nat)
    (attempt : Nat) (retries : Nat) (delay : Nat) : RetryResult A :=
  match fn attempt with
  | Except.ok a => { result := Except.ok a, waits := [], calls := 1 }
  | Except.error e =>
    match retries with
    | r + 1 =>
      if e.isRateLimit then
        let rest := callWithRetry fn jitter (attempt + 1) r (delay * 2)
        { result := rest.result, waits := (delay + jitter attempt) :: rest.waits,
          calls := rest.calls + 1 }
      else { result := Except.error e, waits := [], calls := 1 }
    | 0 => { result := Except.error e, waits := [], calls := 1 }

/-- Helper: the `k`-th wait performed by `callWithRetry` is the current delay
doubled `k` times plus the jitter drawn at the corresponding attempt. -/
theorem callWithRetry_waits {A : Type} (fn : Nat → Except GenError A)
    (jitter : Nat → Nat) :
    ∀ (retries attempt delay k : Nat) (w : Nat),
      ((callWithRetry fn jitter attempt retries delay).waits)[k]? = some w →
      w = delay * 2 ^ k + jitter (attempt + k) := by
  intro retries
  induction retries with
  | zero =>
    intro attempt delay k w h
    unfold callWithRetry at h
    cases hfn : fn attempt <;> simp [hfn] at h
  | succ r ih =>
    intro attempt delay k w h
    unfold callWithRetry at h
    cases hfn : fn attempt with
    | ok a => simp [hfn] at h
    | error e =>
      cases hrl : e.isRateLimit with
      | false => simp [hfn, hrl] at h
      | true =>
        simp only [hfn, hrl, if_true] at h
        cases k with
        | zero =>
          simp at h ⊢
          omega
        | succ k' =>
          simp at h
          rw [ih (attempt + 1) (delay * 2) k' w h]
          have h2 : delay * 2 * 2 ^ k' = delay * 2 ^ (k' + 1) := by ring
          have h3 : attempt + 1 + k' = attempt + (k' + 1) := by omega
          rw [h2, h3]

/-- Helper: `callWithRetry` performs one more call than it performs waits,
and at most `retries + 1` calls in total. -/
theorem callWithRetry_calls {A : Type} (fn : Nat → Except GenError A)
    (jitter : Nat → Nat) :
    ∀ (retries attempt delay : Nat),
      (callWithRetry fn jitter attempt retries delay).calls =
        (callWithRetry fn jitter attempt retries delay).waits.length + 1 ∧
      (callWithRetry fn jitter attempt retries delay).calls ≤ retries + 1 := by
  intro retries
  induction retries with
  | zero =>
    intro attempt delay
    unfold callWithRetry
    cases hfn : fn attempt <;> simp
  | succ r ih =>
    intro attempt delay
    unfold callWithRetry
    cases hfn : fn attempt with
    | ok a => simp
    | error e =>
      cases hrl : e.isRateLimit with
      | false => simp [hrl]
      | true =>
        have h1 := (ih (attempt + 1) (delay * 2)).1
        have h2 := (ih (attempt + 1) (delay * 2)).2
        simp [hrl]
        omega

/-- Helper: a rate-limited error can only escape `callWithRetry` after every
retry has been consumed. -/
theorem callWithRetry_exhausts {A : Type} (fn : Nat → Except GenError A)
    (jitter : Nat → Nat) :
    ∀ (retries attempt delay : Nat) (e : GenError),
      (callWithRetry fn jitter attempt retries delay).result = Except.error e →
      e.isRateLimit = true →
      (callWithRetry fn jitter attempt retries delay).calls = retries + 1 := by
  intro retries
  induction retries with
  | zero =>
    intro attempt delay e h _
    unfold callWithRetry at h ⊢
    cases hfn : fn attempt <;> simp [hfn] at h ⊢
  | succ r ih =>
    intro attempt delay e h hrl
    unfold callWithRetry at h ⊢
    cases hfn : fn attempt with
    | ok a => simp [hfn] at h
    | error e' =>
      cases hrl' : e'.isRateLimit with
      | false =>
        simp [hfn, hrl'] at h ⊢
        rw [← h] at hrl
        simp [hrl'] at hrl
      | true =>
        simp [hfn, hrl'] at h ⊢
        have := ih (attempt + 1) (delay * 2) e h hrl
        omega

/-- Helper: a non-rate-limit error on the first invocation propagates
immediately, with no waits and a single call. -/
theorem callWithRetry_immediate {A : Type} (fn : Nat → Except GenError A)
    (jitter : Nat → Nat) (retries delay : Nat) (e : GenError)
    (hfn : fn 0 = Except.error e) (hrl : e.isRateLimit = false) :
    callWithRetry fn jitter 0 retries delay =
      { result := Except.error e, waits := [], calls := 1 } := by
  unfold callWithRetry
  cases retries <;> simp [hfn, hrl]

/-- `generateAgentThought` from geminiService.ts.  The backend call plus the
`JSON.parse` of its text is modelled by `backend n`: `Except.error` when the
call or the parse throws (caught by the inner `catch`, returning
`"Thinking..."`), `Except.ok none` when the parsed object has no `thought`
field, and `Except.ok (some t)` when it has one (an empty string is falsy in
`data.thought || "Thinking..."`).  The inner function is wrapped in
`callWithRetry` exactly as in the source. -/
def generateAgentThought (backend : Nat → Except GenError (Option String))
    (jitter : Nat → Nat) : RetryResult String :=
  callWithRetry (fun n =>
    match backend n with
    | Except.error _ => Except.ok "Thinking..."
    | Except.ok none => Except.ok "Thinking..."
    | Except.ok (some t) => Except.ok (if t = "" then "Thinking..." else t))
    jitter 0 MAX_RETRIES INITIAL_BACKOFF_MS

/-- The error fragment yielded by `generateAgentSpeechStream` when the
connection fails after retries ("Error: Service busy. Please try again
later."). -/
def streamErrorNotice : String := "Error: Service busy. Please try again later."

/-- `generateAgentSpeechStream` from geminiService.ts.  `conn n` models the
`n`-th attempt to start `ai.models.generateContentStream` (retried through
`callWithRetry`); on success it returns the stream's chunks, each chunk's
`.text` being `none` (absent), `""`, or a non-empty string.  Chunks whose
text is falsy are not yielded (`if (text) yield text`).  If the retried
connection fails, the generator's `catch` yields the single fragment
`streamErrorNotice` and terminates. -/
def generateAgentSpeechStream (conn : Nat → Except GenError (List (Option String)))
    (jitter : Nat → Nat) : List String :=
  match (callWithRetry conn jitter 0 MAX_RETRIES INITIAL_BACKOFF_MS).result with
  | Except.error _ => [streamErrorNotice]
  | Except.ok chunks =>
      chunks.filterMap (fun c =>
        match c with
        | none => none
        | some t => if t = "" then none else some t)

/-! ## Session state store (App.tsx) -/

/-- The body of `addMessage` in App.tsx, on the message list:
`[...prev.messages, msg]`. -/
def addMessageList (msg : Message) (msgs : List Message) : List Message :=
  msgs ++ [msg]

/-- The body of `updateLastMessage` in App.tsx, on the message list: a no-op
when the transcript is empty, otherwise
`msgs[msgs.length - 1] = { ...msgs[msgs.length - 1], content }`. -/
def updateLastContent (content : String) (msgs : List Message) : List Message :=
  match msgs.getLast? with
  | none => msgs
  | some m => msgs.set (msgs.length - 1) { m with content := content }

/-- `updateLastMessage` from App.tsx, lifted to the whole `MeetingState`. -/
def updateLastMessage (content : String) (s : MeetingState) : MeetingState :=
  { s with messages := updateLastContent content s.messages }

/-- The two transcript mutations available during the meeting stage: every
append (the welcome message, user messages via `handleUserMessage`, assistant
interventions and agent placeholders via `addMessage`) and every streaming
update (`updateLastMessage`). -/
inductive MeetingOp where
  | append (m : Message)
  | updateLast (c : String)
deriving DecidableEq, Repr

/-- Apply one transcript mutation. -/
def applyOp (msgs : List Message) : MeetingOp → List Message
  | MeetingOp.append m => addMessageList m msgs
  | MeetingOp.updateLast c => updateLastContent c msgs

/-- Apply a sequence of transcript mutations, oldest first. -/
def applyOps (msgs : List Message) : List MeetingOp → List Message
  | [] => msgs
  | op :: ops => applyOps (applyOp msgs op) ops

/-- Helper: `updateLastContent` preserves the length of the transcript. -/
theorem length_updateLastContent (c : String) (msgs : List Message) :
    (updateLastContent c msgs).length = msgs.length := by
  unfold updateLastContent
  cases h : msgs.getLast? <;> simp

/-- Helper: `updateLastContent` leaves every position other than the last one
untouched. -/
theorem updateLastContent_getElem_ne (c : String) (msgs : List Message)
    (j : Nat) (hj : j ≠ msgs.length - 1) :
    (updateLastContent c msgs)[j]? = msgs[j]? := by
  unfold updateLastContent
  cases h : msgs.getLast? with
  | none => rfl
  | some m => rw [List.getElem?_set_ne (by omega)]

/-- Helper: a single mutation never changes an entry that is strictly before
the last one, and never shrinks the transcript. -/
theorem applyOp_frozen (msgs : List Message) (op : MeetingOp) (i : Nat)
    (hi : i + 1 < msgs.length) :
    (applyOp msgs op)[i]? = msgs[i]? ∧ i + 1 < (applyOp msgs op).length := by
  cases op with
  | append m =>
    simp only [applyOp, addMessageList]
    constructor
    · rw [List.getElem?_append, if_pos (by omega)]
    · simp
      omega
  | updateLast c =>
    simp only [applyOp]
    constructor
    · exact updateLastContent_getElem_ne c msgs i (by omega)
    · rw [length_updateLastContent]
      exact hi

/-- Helper: no sequence of mutations ever changes an entry that is strictly
before the last one. -/
theorem applyOps_frozen (ops : List MeetingOp) :
    ∀ (msgs : List Message) (i : Nat), i + 1 < msgs.length →
      (applyOps msgs ops)[i]? = msgs[i]? := by
  induction ops with
  | nil => intro msgs i _; rfl
  | cons op ops ih =>
    intro msgs i hi
    have h := applyOp_frozen msgs op i hi
    unfold applyOps
    rw [ih (applyOp msgs op) i h.2, h.1]

/-! ## Session lifecycle (App.tsx) -/

/-- The localized `hostRole` string from the `TEXT` table in App.tsx. -/
def hostRole : Language → String
  | Language.en => "Host / Moderator"
  | Language.zh => "主持人 / 版主"

/-- The localized `assistantName` string from the `TEXT` table in App.tsx. -/
def assistantName : Language → String
  | Language.en => "Meeting Assistant"
  | Language.zh => "会议助手"

/-- The seed message built inside `startMeeting` in App.tsx. -/
def welcomeMessage (lang : Language) (topic : String) (now : Nat) : Message :=
  { id := "system-start", senderId := "system", senderName := "System",
    content :=
      if lang = Language.zh then
        "会议开始，话题: \"" ++ topic ++ "\". 主持人（你）请发言。"
      else
        "Meeting started on topic: \"" ++ topic ++ "\". The moderator (You) has the floor.",
    thought := none, timestamp := now, type := MsgType.system }

/-- `startMeeting` from App.tsx.  `Date.now()` is the oracle `now`.  The
function itself bails out only on an empty roster; on success it moves to
the meeting stage, replaces the transcript with the single welcome message,
sets `isActive`, and resets the turn counter to zero. -/
def startMeeting (now : Nat) (stage : AppStage) (s : MeetingState)
    (turnCount : Nat) : AppStage × MeetingState × Nat :=
  if s.agents.length = 0 then (stage, s, turnCount)
  else
    (AppStage.meeting,
     { s with messages := [welcomeMessage s.language s.topic now], isActive := true },
     0)

/-- The user-facing start-meeting operation: the "Start Meeting" button in
`renderRolesStage` carries `disabled={state.agents.length < 2}`, so its
`onClick={startMeeting}` handler only fires when the roster has at least two
agents. -/
def startMeetingClick (now : Nat) (stage : AppStage) (s : MeetingState)
    (turnCount : Nat) : AppStage × MeetingState × Nat :=
  if s.agents.length < 2 then (stage, s, turnCount)
  else startMeeting now stage s turnCount

/-- The user `Message` built inside `handleUserMessage` in App.tsx. -/
def userMessage (inputValue : String) (lang : Language) (now : Nat) : Message :=
  { id := toString now, senderId := "user", senderName := hostRole lang,
    content := inputValue, thought := none, timestamp := now,
    type := MsgType.speech }

/-- The guard `!inputValue.trim()` of `handleUserMessage`: a JavaScript
string is falsy after `trim()` exactly when every character is whitespace. -/
def isBlank (s : String) : Bool :=
  s.toList.all Char.isWhitespace

/-- `handleUserMessage` from App.tsx.  Returns the state after the
synchronous part (clear `isActive`, append the user message, which also
bumps the turn counter via `addMessage`), the new turn counter, and
`some 2000` when the 2000 ms resume timer was scheduled (`none` when the
input was blank and nothing happened). -/
def handleUserMessage (inputValue : String) (now : Nat) (s : MeetingState)
    (turnCount : Nat) : MeetingState × Nat × Option Nat :=
  if isBlank inputValue then (s, turnCount, none)
  else
    let s1 : MeetingState := { s with isActive := false }
    let s2 : MeetingState :=
      { s1 with messages := addMessageList (userMessage inputValue s.language now) s1.messages }
    (s2, turnCount + 1, some 2000)

/-- The callback of the 2000 ms `setTimeout` in `handleUserMessage`:
`setState(prev => ({ ...prev, isActive: true }))`, applied to whatever the
state is when the timer fires. -/
def resumeAfterQuietPeriod (s : MeetingState) : MeetingState :=
  { s with isActive := true }

/-! ## Persistence adapter (App.tsx `restoreSession`) -/

/-- A `MeetingState` as it comes back from `JSON.parse`: every field may be
absent, because `restoreSession` performs no shape validation before
`setState(parsed.state)`. -/
structure RawMeetingState where
  topic : Option String
  agents : Option (List Agent)
  messages : Option (List Message)
  isActive : Option Bool
  isGenerating : Option Bool
  language : Option Language
deriving DecidableEq, Repr

/-- A parsed `SavedSessionData` blob (`{ stage, state, report, timestamp }`). -/
structure RawSnapshot where
  stage : AppStage
  state : RawMeetingState
  report : String
  timestamp : Nat
deriving DecidableEq, Repr

/-- What `localStorage.getItem` + `JSON.parse` can produce inside
`restoreSession`: no stored item, a string that throws on `JSON.parse`, or a
parsed object of whatever shape. -/
inductive StoredBlob where
  | absent
  | parseFailure
  | parsed (snap : RawSnapshot)
deriving DecidableEq, Repr

/-- Observable outcome of `restoreSession`: which setters ran and with what
arguments, whether the `alert(t.restoreFail)` notice was shown, and whether
`localStorage.removeItem` was called. -/
structure RestoreOutcome where
  appliedStage : Option AppStage
  appliedState : Option RawMeetingState
  appliedReport : Option String
  noticeShown : Bool
  snapshotDiscarded : Bool
deriving DecidableEq, Repr

/-- `restoreSession` from App.tsx: on a present blob it parses and applies
`setStage(parsed.stage); setState(parsed.state); setReport(parsed.report)`
unconditionally; only a thrown `JSON.parse` error reaches the `catch`, which
alerts `t.restoreFail` and nothing else (in particular `removeItem` is never
called here). -/
def restoreSession : StoredBlob → RestoreOutcome
  | StoredBlob.absent =>
      { appliedStage := none, appliedState := none, appliedReport := none,
        noticeShown := false, snapshotDiscarded := false }
  | StoredBlob.parseFailure =>
      { appliedStage := none, appliedState := none, appliedReport := none,
        noticeShown := true, snapshotDiscarded := false }
  | StoredBlob.parsed snap =>
      { appliedStage := some snap.stage, appliedState := some snap.state,
        appliedReport := some snap.report,
        noticeShown := false, snapshotDiscarded := false }

/-! ## Turn scheduler (`processNextTurn` in App.tsx) -/

/-- The early-return condition at the top of `processNextTurn`:
`!state.isActive || state.isGenerating || stage !== 'meeting' ||
state.agents.length === 0 || isSummaryOpen`. -/
def entryGuardFails (stage : AppStage) (s : MeetingState)
    (isSummaryOpen : Bool) : Prop :=
  s.isActive = false ∨ s.isGenerating = true ∨ stage ≠ AppStage.meeting ∨
    s.agents.length = 0 ∨ isSummaryOpen = true

instance (stage : AppStage) (s : MeetingState) (isSummaryOpen : Bool) :
    Decidable (entryGuardFails stage s isSummaryOpen) := by
  unfold entryGuardFails
  exact inferInstance

/-- The assistant intervention `Message` built inside `processNextTurn`. -/
def assistantMessage (lang : Language) (txt : String) (now : Nat) : Message :=
  { id := toString now, senderId := "assistant", senderName := assistantName lang,
    content := txt, thought := none, timestamp := now, type := MsgType.system }

/-- The placeholder `Message` appended for the chosen speaker (empty content,
thought attached) inside `processNextTurn`. -/
def agentPlaceholderMessage (sp : Agent) (thought : String) (now : Nat) : Message :=
  { id := toString now, senderId := sp.id, senderName := sp.name,
    content := "", thought := some thought, timestamp := now,
    type := MsgType.speech }

/-- The `for await (const chunk of stream)` loop of `processNextTurn`:
`fullContent += chunk; updateLastMessage(fullContent)` for each fragment. -/
def streamConsume (frags : List String) (fullContent : String)
    (msgs : List Message) : List Message :=
  match frags with
  | [] => msgs
  | f :: rest =>
      streamConsume rest (fullContent ++ f)
        (updateLastContent (fullContent ++ f) msgs)

/-- The oracle inputs consumed by one run of `processNextTurn`:
the `generatePhaseCheck` result (`none` both when the backend asks for no
action and when the call failed — the source's `catch` ignores assistant
errors), the random pick (`Math.floor(Math.random() * candidates.length)`,
modelled as an arbitrary `Nat` reduced mod the candidate count), the
`generateAgentThought` outcome as observed by the `try` block, the streaming
connection attempts with their jitter, and `Date.now()`. -/
structure TurnEnv where
  phase : Option String
  pick : Nat
  thoughtRes : Except GenError String
  conn : Nat → Except GenError (List (Option String))
  jitter : Nat → Nat
  now : Nat

/-- Observable outcome of one invocation of `processNextTurn`. `ran` is true
when the entry guard passed (so `setState({isGenerating: true})` executed);
`crashed` records the only path that throws outside the `try` block (reading
`lastMessage.senderId` of an empty transcript); `thinking` is the final
`thinkingAgentId`. -/
structure TurnOutcome where
  ran : Bool
  crashed : Bool
  checkAttempted : Bool
  speaker : Option Agent
  state : MeetingState
  turnCount : Nat
  thinking : Option String

/-- Stand-in for the (unreachable) out-of-bounds result of the JavaScript
indexing `candidates[Math.floor(Math.random() * candidates.length)]`: the
random index is always strictly below `candidates.length`, so this default
is never consulted once the empty-candidates check has passed. -/
def fallbackAgent : Agent :=
  { id := "", name := "", role := "", personality := "", avatarId := 0 }

/-- `const availableAgents = state.agents.filter(a => a.id !==
lastMessage.senderId)` from `processNextTurn`. -/
def availableAgents (agents : List Agent) (lastMessage : Message) : List Agent :=
  agents.filter (fun a => a.id ≠ lastMessage.senderId)

/-- `const candidates = availableAgents.length > 0 ? availableAgents :
state.agents` from `processNextTurn`. -/
def speakerCandidates (agents : List Agent) (lastMessage : Message) : List Agent :=
  if 0 < (availableAgents agents lastMessage).length then
    availableAgents agents lastMessage
  else agents

/-- PHASE 2 of `processNextTurn` (speaker selection, thought, streaming),
entered with `isGenerating` already set in `sGen`.  Mirrors the source line
by line: last message lookup, `availableAgents` filter, fallback to the full
roster, dead empty-candidates check, random pick, `generateAgentThought`
inside `try`, placeholder append, stream consumption, and the `finally`
cleanup that clears `isGenerating` and `thinkingAgentId`. -/
def agentTurn (sGen : MeetingState) (turnCount : Nat) (thinking0 : Option String)
    (checkAttempted : Bool) (env : TurnEnv) : TurnOutcome :=
  match sGen.messages.getLast? with
  | none =>
      { ran := true, crashed := true, checkAttempted := checkAttempted,
        speaker := none, state := sGen, turnCount := turnCount,
        thinking := thinking0 }
  | some lastMessage =>
      let candidates := speakerCandidates sGen.agents lastMessage
      if candidates.length = 0 then
        { ran := true, crashed := false, checkAttempted := checkAttempted,
          speaker := none, state := { sGen with isGenerating := false },
          turnCount := turnCount, thinking := thinking0 }
      else
        let nextSpeaker := candidates.getD (env.pick % candidates.length) fallbackAgent
        match env.thoughtRes with
        | Except.error _ =>
            { ran := true, crashed := false, checkAttempted := checkAttempted,
              speaker := some nextSpeaker,
              state := { sGen with isGenerating := false },
              turnCount := turnCount, thinking := none }
        | Except.ok thought =>
            let msgs1 :=
              addMessageList (agentPlaceholderMessage nextSpeaker thought env.now)
                sGen.messages
            let frags := generateAgentSpeechStream env.conn env.jitter
            let msgs2 := streamConsume frags "" msgs1
            { ran := true, crashed := false, checkAttempted := checkAttempted,
              speaker := some nextSpeaker,
              state := { sGen with messages := msgs2, isGenerating := false },
              turnCount := turnCount + 1, thinking := none }

/-- `processNextTurn` from App.tsx.  Entry guard, then
`setState({isGenerating: true})`, then PHASE 1 (the assistant check when the
turn counter is a positive multiple of 4: on an intervention, append the
assistant message, clear `isGenerating`, and return without selecting a
speaker), then PHASE 2 via `agentTurn`. -/
def processNextTurn (stage : AppStage) (s : MeetingState) (isSummaryOpen : Bool)
    (turnCount : Nat) (thinking0 : Option String) (env : TurnEnv) : TurnOutcome :=
  if entryGuardFails stage s isSummaryOpen then
    { ran := false, crashed := false, checkAttempted := false, speaker := none,
      state := s, turnCount := turnCount, thinking := thinking0 }
  else
    let sGen : MeetingState := { s with isGenerating := true }
    if 0 < turnCount ∧ turnCount % 4 = 0 then
      match env.phase with
      | some txt =>
          { ran := true, crashed := false, checkAttempted := true,
            speaker := none,
            state := { sGen with
              messages := addMessageList (assistantMessage s.language txt env.now) sGen.messages,
              isGenerating := false },
            turnCount := turnCount + 1, thinking := thinking0 }
      | none => agentTurn sGen turnCount thinking0 true env
    else agentTurn sGen turnCount thinking0 false env

/-- Helper: updating the streaming content of a transcript of shape
`l ++ [m]` rewrites exactly the final entry `m`. -/
theorem updateLastContent_concat (c : String) (l : List Message) (m : Message) :
    updateLastContent c (l ++ [m]) = l ++ [{ m with content := c }] := by
  unfold updateLastContent
  rw [List.getLast?_concat]
  simp only [List.length_append, List.length_singleton]
  have h : l.length + 1 - 1 = l.length := by omega
  rw [h, List.set_append_right _ _ (Nat.le_refl _)]
  simp

/-- Helper: `agentTurn` reports `ran = true` and echoes its
`checkAttempted` argument on every path. -/
theorem agentTurn_ran (sGen : MeetingState) (turnCount : Nat)
    (thinking0 : Option String) (checkAttempted : Bool) (env : TurnEnv) :
    (agentTurn sGen turnCount thinking0 checkAttempted env).ran = true ∧
    (agentTurn sGen turnCount thinking0 checkAttempted env).checkAttempted =
      checkAttempted := by
  cases h : sGen.messages.getLast? with
  | none => simp [agentTurn, h]
  | some m =>
    simp only [agentTurn, h]
    split_ifs <;> first
    | exact ⟨rfl, rfl⟩
    | (cases env.thoughtRes <;> exact ⟨rfl, rfl⟩)

/-- Helper: on a non-empty transcript, `agentTurn` always ends with the
generating flag cleared and, when it started with no thinking marker, with
the thinking marker still clear. -/
theorem agentTurn_cleanup (sGen : MeetingState) (turnCount : Nat)
    (checkAttempted : Bool) (env : TurnEnv) (hmsgs : sGen.messages ≠ []) :
    (agentTurn sGen turnCount none checkAttempted env).state.isGenerating = false ∧
    (agentTurn sGen turnCount none checkAttempted env).thinking = none := by
  cases h : sGen.messages.getLast? with
  | none => exact absurd (List.getLast?_eq_none_iff.mp h) hmsgs
  | some m =>
    simp only [agentTurn, h]
    split_ifs <;> first
    | exact ⟨rfl, rfl⟩
    | (cases env.thoughtRes <;> exact ⟨rfl, rfl⟩)

/-! ## C1 — single-stream invariant -/

/-- C1: For every sequence of meeting-stage transcript operations (appends
from scheduler turns, assistant interventions or user submissions, and
streaming-content updates), an entry that is no longer the most-recently
appended one — i.e. any entry at a position strictly before the last — is
never changed again; and each single streaming update touches no position
other than the last one.  This is the amended form of the claim: the source
guarantees that updates hit only the *current* last entry, not that this
entry is the one the streaming turn itself appended (see the
counterexample). -/
theorem frozen_prefix_invariant (msgs : List Message) (ops : List MeetingOp)
    (i : Nat) (c : String) (j : Nat) (hi : i + 1 < msgs.length)
    (hj : j ≠ msgs.length - 1) :
    (applyOps msgs ops)[i]? = msgs[i]? ∧
    (updateLastContent c msgs)[j]? = msgs[j]? := by
  exact ⟨applyOps_frozen ops msgs i hi, updateLastContent_getElem_ne c msgs j hj⟩

/-! ## Concrete sample data used to instantiate the theorems -/

/-- A sample agent. -/
def agentA : Agent :=
  { id := "agent-1", name := "Alice", role := "Skeptic",
    personality := "Sharp, analytical", avatarId := 1 }

/-- Another sample agent, with a distinct id. -/
def agentB : Agent :=
  { id := "agent-2", name := "Bob", role := "Optimist",
    personality := "Warm, hopeful", avatarId := 2 }

/-- The welcome message of a sample English meeting on topic "UBI". -/
def welcome0 : Message := welcomeMessage Language.en "UBI" 10

/-- A sample live meeting state: two agents, the seeded welcome message,
auto-pilot active, no generation in flight. -/
def sampleState : MeetingState :=
  { topic := "UBI", agents := [agentA, agentB], messages := [welcome0],
    isActive := true, isGenerating := false, language := Language.en }

/-- A sample turn environment: no intervention, pick 0, a successful
thought, a one-chunk stream, zero jitter. -/
def sampleEnv : TurnEnv :=
  { phase := none, pick := 0, thoughtRes := Except.ok "I should push back.",
    conn := fun _ => Except.ok [some "I disagree."], jitter := fun _ => 0,
    now := 42 }

/-! ## C2 — generation-flag liveness -/

/-- C2: every run of `processNextTurn` that passes the entry guard (and so
sets `generating := true`) terminates with `generating = false` and the
currently-thinking marker cleared, whether the thought generation or the
speech stream succeeds or fails — provided the transcript is non-empty at
the start of the cycle (which holds in every meeting entered through
`startMeeting`, since it seeds the welcome message and the transcript is
append-only afterwards). -/
theorem generating_flag_liveness (stage : AppStage) (s : MeetingState)
    (isSummaryOpen : Bool) (turnCount : Nat) (env : TurnEnv)
    (hmsgs : s.messages ≠ [])
    (hran : (processNextTurn stage s isSummaryOpen turnCount none env).ran = true) :
    (processNextTurn stage s isSummaryOpen turnCount none env).state.isGenerating = false ∧
    (processNextTurn stage s isSummaryOpen turnCount none env).thinking = none := by
  by_cases hg : entryGuardFails stage s isSummaryOpen
  · simp [processNextTurn, hg] at hran
  · simp only [processNextTurn, if_neg hg]
    split_ifs with hc
    · cases hp : env.phase with
      | some txt => exact ⟨rfl, rfl⟩
      | none => exact agentTurn_cleanup _ _ _ _ hmsgs
    · exact agentTurn_cleanup _ _ _ _ hmsgs

/-- Witness instantiating C2 on the sample meeting. -/
theorem generating_flag_liveness_witness :
    (processNextTurn AppStage.meeting sampleState false 0 none sampleEnv).state.isGenerating = false ∧
    (processNextTurn AppStage.meeting sampleState false 0 none sampleEnv).thinking = none :=
  generating_flag_liveness AppStage.meeting sampleState false 0 sampleEnv
    (by decide) (by decide)

/-! ## C4 — phase-check cadence -/

/-- C4: in every cycle that passes the entry guard, the moderating check is
attempted iff the turn counter at the start of the cycle is a positive
multiple of 4; and when it returns an intervention string, a `system`-kind
message from the `assistant` sentinel carrying that text is appended, the
generating flag is cleared, and no speaker is selected in that cycle. -/
theorem phase_check_cadence (stage : AppStage) (s : MeetingState)
    (isSummaryOpen : Bool) (turnCount : Nat) (thinking0 : Option String)
    (env : TurnEnv) (hg : ¬ entryGuardFails stage s isSummaryOpen) :
    ((processNextTurn stage s isSummaryOpen turnCount thinking0 env).checkAttempted = true ↔
      (0 < turnCount ∧ turnCount % 4 = 0)) ∧
    (∀ txt, env.phase = some txt → 0 < turnCount → turnCount % 4 = 0 →
      (processNextTurn stage s isSummaryOpen turnCount thinking0 env).state.messages =
        s.messages ++ [assistantMessage s.language txt env.now] ∧
      (processNextTurn stage s isSummaryOpen turnCount thinking0 env).state.isGenerating = false ∧
      (processNextTurn stage s isSummaryOpen turnCount thinking0 env).speaker = none ∧
      (processNextTurn stage s isSummaryOpen turnCount thinking0 env).turnCount = turnCount + 1) := by
  simp only [processNextTurn, if_neg hg]
  split_ifs with hc
  · cases hp : env.phase with
    | some txt =>
      constructor
      · simp [hc]
      · intro t ht _ _
        cases ht
        exact ⟨rfl, rfl, rfl, rfl⟩
    | none =>
      constructor
      · simp [(agentTurn_ran _ _ _ _ _).2, hc]
      · intro t ht _ _
        cases ht
  · constructor
    · simp [(agentTurn_ran _ _ _ _ _).2]
      intro h1 h2
      exact hc ⟨h1, h2⟩
    · intro t _ h1 h2
      exact absurd ⟨h1, h2⟩ hc

/-- A turn environment in which the assistant intervenes. -/
def interveneEnv : TurnEnv :=
  { sampleEnv with phase := some "Consensus reached; let us move on." }

/-- Witness instantiating C4 on the sample meeting at turn counter 4 with an
intervention. -/
theorem phase_check_cadence_witness :
    ((processNextTurn AppStage.meeting sampleState false 4 none interveneEnv).checkAttempted = true ↔
      (0 < 4 ∧ 4 % 4 = 0)) ∧
    (∀ txt, interveneEnv.phase = some txt → 0 < 4 → 4 % 4 = 0 →
      (processNextTurn AppStage.meeting sampleState false 4 none interveneEnv).state.messages =
        sampleState.messages ++ [assistantMessage sampleState.language txt interveneEnv.now] ∧
      (processNextTurn AppStage.meeting sampleState false 4 none interveneEnv).state.isGenerating = false ∧
      (processNextTurn AppStage.meeting sampleState false 4 none interveneEnv).speaker = none ∧
      (processNextTurn AppStage.meeting sampleState false 4 none interveneEnv).turnCount = 4 + 1) :=
  phase_check_cadence AppStage.meeting sampleState false 4 none interveneEnv (by decide)

/-! ## C3 — speaker never equals the previous sender -/

/-- Helper: an in-range `getD` hits a real element of the list. -/
theorem getD_mem_of_lt (l : List Agent) (i : Nat) (d : Agent)
    (h : i < l.length) : l[i]?.getD d ∈ l := by
  rw [List.getElem?_eq_getElem h]
  simp

/-- Helper: with at least two agents carrying distinct ids, the exclusion
set (agents other than the last sender) is non-empty. -/
theorem availableAgents_nonempty (agents : List Agent) (lastM : Message)
    (hlen : 2 ≤ agents.length) (hids : (agents.map Agent.id).Nodup) :
    0 < (availableAgents agents lastM).length := by
  by_contra hno
  have hnil : availableAgents agents lastM = [] := by
    cases hf : availableAgents agents lastM with
    | nil => rfl
    | cons x xs => rw [hf] at hno; simp at hno
  have hall : ∀ a ∈ agents, a.id = lastM.senderId := by
    intro a ha
    have := List.filter_eq_nil_iff.mp hnil a ha
    simpa using this
  obtain ⟨a, b, t, hagents⟩ : ∃ a b t, agents = a :: b :: t := by
    have h2 := hlen
    revert h2
    cases agents with
    | nil => intro h2; simp at h2
    | cons a rest =>
      cases rest with
      | nil => intro h2; simp at h2
      | cons b t => intro _; exact ⟨a, b, t, rfl⟩
  have ha := hall a (by rw [hagents]; exact List.mem_cons_self _ _)
  have hb := hall b (by
    rw [hagents]
    exact List.mem_cons_of_mem _ (List.mem_cons_self _ _))
  rw [hagents] at hids
  simp only [List.map_cons, List.nodup_cons] at hids
  exact hids.1 (by rw [ha, hb]; exact List.mem_cons_self _ _)

/-- Helper: when a speaker is selected and the exclusion set is non-empty,
the speaker is one of its members. -/
theorem agentTurn_speaker_mem (sGen : MeetingState) (turnCount : Nat)
    (thinking0 : Option String) (ca : Bool) (env : TurnEnv) (sp : Agent)
    (lastM : Message) (hlast : sGen.messages.getLast? = some lastM)
    (hava : 0 < (availableAgents sGen.agents lastM).length)
    (hsp : (agentTurn sGen turnCount thinking0 ca env).speaker = some sp) :
    sp ∈ availableAgents sGen.agents lastM := by
  have hcand : speakerCandidates sGen.agents lastM = availableAgents sGen.agents lastM := by
    unfold speakerCandidates
    rw [if_pos hava]
  simp only [agentTurn, hlast, hcand] at hsp
  rw [if_neg (by omega)] at hsp
  cases hth : env.thoughtRes with
  | error e =>
    rw [hth] at hsp
    simp at hsp
    exact hsp ▸ getD_mem_of_lt _ _ _ (Nat.mod_lt _ hava)
  | ok th =>
    rw [hth] at hsp
    simp at hsp
    exact hsp ▸ getD_mem_of_lt _ _ _ (Nat.mod_lt _ hava)

/-- C3: whenever a scheduler cycle selects a speaker and the roster holds at
least two agents (with the distinct ids the data model guarantees), the
chosen speaker is drawn from the set of agents excluding the sender of the
immediately preceding transcript message, so their id differs from that
sender's id. -/
theorem speaker_not_last_sender (stage : AppStage) (s : MeetingState)
    (isSummaryOpen : Bool) (turnCount : Nat) (thinking0 : Option String)
    (env : TurnEnv) (sp : Agent)
    (hlen : 2 ≤ s.agents.length)
    (hids : (s.agents.map Agent.id).Nodup)
    (hsp : (processNextTurn stage s isSummaryOpen turnCount thinking0 env).speaker = some sp) :
    ∃ lastM, s.messages.getLast? = some lastM ∧
      sp ∈ availableAgents s.agents lastM ∧
      sp.id ≠ lastM.senderId := by
  by_cases hg : entryGuardFails stage s isSummaryOpen
  · simp [processNextTurn, hg] at hsp
  · have key : ∀ (ca : Bool),
        (agentTurn { s with isGenerating := true } turnCount thinking0 ca env).speaker = some sp →
        ∃ lastM, s.messages.getLast? = some lastM ∧
          sp ∈ availableAgents s.agents lastM ∧
          sp.id ≠ lastM.senderId := by
      intro ca hsp'
      cases hlast : s.messages.getLast? with
      | none => simp [agentTurn, hlast] at hsp'
      | some lastM =>
        have hava := availableAgents_nonempty s.agents lastM hlen hids
        have hmem := agentTurn_speaker_mem { s with isGenerating := true }
          turnCount thinking0 ca env sp lastM hlast hava hsp'
        refine ⟨lastM, rfl, hmem, ?_⟩
        have := List.mem_filter.mp hmem
        simpa using this.2
    simp only [processNextTurn, if_neg hg] at hsp
    split_ifs at hsp with hc
    · cases hp : env.phase with
      | some txt => rw [hp] at hsp; simp at hsp
      | none => rw [hp] at hsp; exact key true hsp
    · exact key false hsp

/-- Witness instantiating C3 on the sample meeting: the welcome message's
sender is `system`, both agents are eligible, and pick 0 chooses Alice. -/
theorem speaker_not_last_sender_witness :
    ∃ lastM, sampleState.messages.getLast? = some lastM ∧
      agentA ∈ availableAgents sampleState.agents lastM ∧
      agentA.id ≠ lastM.senderId :=
  speaker_not_last_sender AppStage.meeting sampleState false 0 none sampleEnv
    agentA (by decide) (by decide) (by decide)

/-! ## C5 — retry policy of the generation service client -/

/-- C5: for every wrapped generation call (started, as in the source, with
`MAX_RETRIES = 3` retries and a `INITIAL_BACKOFF_MS = 2000` delay, the jitter
being `Math.random() * 500 < 500`): at most 4 invocations happen in total;
the `k`-th wait is `2000 * 2^k` plus its jitter, hence within
`[2000 * 2^k, 2000 * 2^k + 500)`; a non-rate-limit error on the first
invocation propagates immediately with no retry; a rate-limited error only
propagates after all 3 retries (4 invocations); and a backend that
rate-limits exactly twice then succeeds yields the success with the two
waits `2000 + jitter` and `4000 + jitter`. -/
theorem retry_backoff_policy {A : Type} (fn : Nat → Except GenError A)
    (jitter : Nat → Nat) (hj : ∀ i, jitter i < 500) :
    ((callWithRetry fn jitter 0 MAX_RETRIES INITIAL_BACKOFF_MS).calls ≤ 4) ∧
    (∀ k w, ((callWithRetry fn jitter 0 MAX_RETRIES INITIAL_BACKOFF_MS).waits)[k]? = some w →
      2000 * 2 ^ k ≤ w ∧ w < 2000 * 2 ^ k + 500) ∧
    (∀ e, fn 0 = Except.error e → e.isRateLimit = false →
      callWithRetry fn jitter 0 MAX_RETRIES INITIAL_BACKOFF_MS =
        { result := Except.error e, waits := [], calls := 1 }) ∧
    (∀ e, (callWithRetry fn jitter 0 MAX_RETRIES INITIAL_BACKOFF_MS).result = Except.error e →
      e.isRateLimit = true →
      (callWithRetry fn jitter 0 MAX_RETRIES INITIAL_BACKOFF_MS).calls = 4) ∧
    (∀ (e0 e1 : GenError) (v : A), fn 0 = Except.error e0 → e0.isRateLimit = true →
      fn 1 = Except.error e1 → e1.isRateLimit = true → fn 2 = Except.ok v →
      (callWithRetry fn jitter 0 MAX_RETRIES INITIAL_BACKOFF_MS).result = Except.ok v ∧
      (callWithRetry fn jitter 0 MAX_RETRIES INITIAL_BACKOFF_MS).waits =
        [2000 + jitter 0, 4000 + jitter 1]) := by
  refine ⟨(callWithRetry_calls fn jitter MAX_RETRIES 0 INITIAL_BACKOFF_MS).2, ?_, ?_, ?_, ?_⟩
  · intro k w hk
    have hwk := callWithRetry_waits fn jitter MAX_RETRIES 0 INITIAL_BACKOFF_MS k w hk
    rw [Nat.zero_add] at hwk
    subst hwk
    exact ⟨Nat.le_add_right _ _, Nat.add_lt_add_left (hj k) _⟩
  · intro e hfn hrl
    exact callWithRetry_immediate fn jitter MAX_RETRIES INITIAL_BACKOFF_MS e hfn hrl
  · intro e hres hrl
    exact callWithRetry_exhausts fn jitter MAX_RETRIES 0 INITIAL_BACKOFF_MS e hres hrl
  · intro e0 e1 v h0 hrl0 h1 hrl1 h2
    constructor <;>
      simp [callWithRetry, MAX_RETRIES, INITIAL_BACKOFF_MS, h0, hrl0, h1, hrl1, h2]

/-- A simulated backend that fails with a rate-limit signal exactly twice and
then succeeds. -/
def twoRateLimitFailures : Nat → Except GenError Nat
  | 0 => Except.error { isRateLimit := true, tag := 0 }
  | 1 => Except.error { isRateLimit := true, tag := 1 }
  | _ => Except.ok 42

/-- Witness instantiating C5: with constant jitter 250, the simulated backend
succeeds on the third invocation after waits of 2250 and 4250 ms. -/
theorem retry_backoff_policy_witness :
    (callWithRetry twoRateLimitFailures (fun _ => 250) 0 MAX_RETRIES INITIAL_BACKOFF_MS).result =
      Except.ok 42 ∧
    (callWithRetry twoRateLimitFailures (fun _ => 250) 0 MAX_RETRIES INITIAL_BACKOFF_MS).waits =
      [2250, 4250] := by
  have h := (retry_backoff_policy twoRateLimitFailures (fun _ => 250)
      (by intro i; show 250 < 500; decide)).2.2.2.2
    { isRateLimit := true, tag := 0 } { isRateLimit := true, tag := 1 } 42
    rfl rfl rfl rfl rfl
  simpa using h

/-! ## C8 — stream failure yields a single error notice -/

/-- Helper: when the thought succeeded and the (retried) stream connection
failed, the turn's final transcript is the old one plus the turn's own
placeholder message whose content has been overwritten with the error
notice. -/
theorem agentTurn_stream_failure (sGen : MeetingState) (turnCount : Nat)
    (thinking0 : Option String) (ca : Bool) (env : TurnEnv) (th : String)
    (lastM : Message) (e : GenError)
    (hlast : sGen.messages.getLast? = some lastM)
    (hagents : sGen.agents.length ≠ 0)
    (hth : env.thoughtRes = Except.ok th)
    (hconn : (callWithRetry env.conn env.jitter 0 MAX_RETRIES INITIAL_BACKOFF_MS).result =
      Except.error e) :
    (agentTurn sGen turnCount thinking0 ca env).state.messages =
      sGen.messages ++
        [{ agentPlaceholderMessage
            ((speakerCandidates sGen.agents lastM).getD
              (env.pick % (speakerCandidates sGen.agents lastM).length) fallbackAgent)
            th env.now with content := streamErrorNotice }] := by
  have hfr : generateAgentSpeechStream env.conn env.jitter = [streamErrorNotice] := by
    unfold generateAgentSpeechStream
    rw [hconn]
  have hcand : (speakerCandidates sGen.agents lastM).length ≠ 0 := by
    unfold speakerCandidates
    split_ifs with h
    · omega
    · exact hagents
  simp only [agentTurn, hlast, hth]
  rw [if_neg hcand, hfr]
  unfold streamConsume streamConsume addMessageList
  rw [show ("" ++ streamErrorNotice) = streamErrorNotice from rfl]
  rw [updateLastContent_concat]

/-- C8: when the stream connection fails even after the retries,
`generateAgentSpeechStream` yields exactly the single error-notice fragment
(it never throws to its consumer), and the hosting message — the one the
turn appended — ends the turn with exactly that notice as its content. -/
theorem stream_failure_yields_notice (stage : AppStage) (s : MeetingState)
    (isSummaryOpen : Bool) (turnCount : Nat) (thinking0 : Option String)
    (env : TurnEnv) (e : GenError) (th : String)
    (hg : ¬ entryGuardFails stage s isSummaryOpen)
    (hconn : (callWithRetry env.conn env.jitter 0 MAX_RETRIES INITIAL_BACKOFF_MS).result =
      Except.error e)
    (hphase : env.phase = none)
    (hth : env.thoughtRes = Except.ok th)
    (hmsgs : s.messages ≠ []) :
    generateAgentSpeechStream env.conn env.jitter = [streamErrorNotice] ∧
    ((processNextTurn stage s isSummaryOpen turnCount thinking0 env).state.messages.getLast?).map
      Message.content = some streamErrorNotice := by
  refine ⟨by unfold generateAgentSpeechStream; rw [hconn], ?_⟩
  obtain ⟨lastM, hlast⟩ : ∃ m, s.messages.getLast? = some m := by
    cases h : s.messages.getLast? with
    | none => exact absurd (List.getLast?_eq_none_iff.mp h) hmsgs
    | some m => exact ⟨m, rfl⟩
  have hagents : s.agents.length ≠ 0 := by
    unfold entryGuardFails at hg
    push_neg at hg
    exact hg.2.2.2.1
  have key : ∀ (ca : Bool),
      ((agentTurn { s with isGenerating := true } turnCount thinking0 ca env).state.messages.getLast?).map
        Message.content = some streamErrorNotice := by
    intro ca
    rw [agentTurn_stream_failure { s with isGenerating := true } turnCount thinking0 ca env
      th lastM e hlast hagents hth hconn]
    rw [List.getLast?_concat]
    rfl
  simp only [processNextTurn, if_neg hg]
  split_ifs with hc
  · rw [hphase]
    exact key true
  · exact key false

/-- A turn environment whose stream connection always rate-limits, so the
retries are exhausted. -/
def failingStreamEnv : TurnEnv :=
  { sampleEnv with conn := fun n => Except.error { isRateLimit := true, tag := n } }

/-- Witness instantiating C8 on the sample meeting with the always-failing
stream connection. -/
theorem stream_failure_yields_notice_witness :
    generateAgentSpeechStream failingStreamEnv.conn failingStreamEnv.jitter =
      [streamErrorNotice] ∧
    ((processNextTurn AppStage.meeting sampleState false 0 none failingStreamEnv).state.messages.getLast?).map
      Message.content = some streamErrorNotice :=
  stream_failure_yields_notice AppStage.meeting sampleState false 0 none
    failingStreamEnv { isRateLimit := true, tag := 3 } "I should push back."
    (by decide) rfl rfl rfl (by decide)

/-! ## C9 — thought generation never propagates an error -/

/-- C9: `generateAgentThought` always returns a string and never propagates
an error: the retried inner function catches every backend failure and every
missing/empty structured `thought` field, returning the filler
"Thinking..." instead, so the retry wrapper succeeds on its first
invocation. -/
theorem thought_never_propagates (backend : Nat → Except GenError (Option String))
    (jitter : Nat → Nat) :
    (generateAgentThought backend jitter).result =
      Except.ok (match backend 0 with
        | Except.error _ => "Thinking..."
        | Except.ok none => "Thinking..."
        | Except.ok (some t) => if t = "" then "Thinking..." else t) ∧
    (generateAgentThought backend jitter).calls = 1 := by
  unfold generateAgentThought callWithRetry
  cases hb : backend 0 with
  | error e => simp [hb]
  | ok o => cases o <;> simp [hb]

/-! ## C10 — a user message pauses, then unconditionally resumes -/

/-- C10: submitting a non-empty user message synchronously clears the active
flag and appends the user's message, and schedules a 2000 ms timer whose
callback sets the active flag to true on whatever state it finds —
unconditionally, so a message submitted while the session was already paused
resumes the autonomous loop. -/
theorem user_message_pauses_then_resumes (inputValue : String) (now : Nat)
    (s : MeetingState) (turnCount : Nat) (hv : isBlank inputValue = false) :
    (handleUserMessage inputValue now s turnCount).1.isActive = false ∧
    (handleUserMessage inputValue now s turnCount).2.2 = some 2000 ∧
    (handleUserMessage inputValue now s turnCount).1.messages =
      s.messages ++ [userMessage inputValue s.language now] ∧
    (∀ s' : MeetingState, (resumeAfterQuietPeriod s').isActive = true) := by
  unfold handleUserMessage
  rw [hv]
  exact ⟨rfl, rfl, rfl, fun s' => rfl⟩

/-- A paused sample state. -/
def pausedState : MeetingState := { sampleState with isActive := false }

/-- Witness instantiating C10 on a paused session. -/
theorem user_message_pauses_then_resumes_witness :
    (handleUserMessage "hello" 99 pausedState 3).1.isActive = false ∧
    (handleUserMessage "hello" 99 pausedState 3).2.2 = some 2000 ∧
    (handleUserMessage "hello" 99 pausedState 3).1.messages =
      pausedState.messages ++ [userMessage "hello" pausedState.language 99] ∧
    (∀ s' : MeetingState, (resumeAfterQuietPeriod s').isActive = true) :=
  user_message_pauses_then_resumes "hello" 99 pausedState 3 (by decide)

/-! ## C6 — roster gating for starting a meeting -/

/-- C6: the user-facing start-meeting operation (disabled button + handler)
leaves the stage, session state and turn counter untouched when the roster
has fewer than 2 agents, and with exactly 2 agents it enters the meeting
stage, seeds the transcript with the welcome message, activates the loop and
resets the turn counter. -/
theorem roster_gating (now : Nat) (stage : AppStage) (s : MeetingState)
    (turnCount : Nat) :
    (s.agents.length < 2 →
      startMeetingClick now stage s turnCount = (stage, s, turnCount)) ∧
    (s.agents.length = 2 →
      startMeetingClick now stage s turnCount =
        (AppStage.meeting,
         { s with messages := [welcomeMessage s.language s.topic now],
                  isActive := true },
         0)) := by
  constructor
  · intro h
    unfold startMeetingClick
    rw [if_pos h]
  · intro h
    unfold startMeetingClick startMeeting
    rw [if_neg (by omega), if_neg (by omega)]

/-- A roster-review state with a single agent. -/
def oneAgentState : MeetingState := { sampleState with agents := [agentA] }

/-- Witness instantiating C6: one agent is rejected (no transition, state
unchanged), two agents are accepted. -/
theorem roster_gating_witness :
    startMeetingClick 10 AppStage.roles oneAgentState 7 =
      (AppStage.roles, oneAgentState, 7) ∧
    startMeetingClick 10 AppStage.roles sampleState 7 =
      (AppStage.meeting,
       { sampleState with
          messages := [welcomeMessage sampleState.language sampleState.topic 10],
          isActive := true },
       0) :=
  ⟨(roster_gating 10 AppStage.roles oneAgentState 7).1 (by decide),
   (roster_gating 10 AppStage.roles sampleState 7).2 (by decide)⟩

/-! ## C7 — malformed snapshot restore -/

/-- A stored snapshot whose `state.agents` field is missing. -/
def malformedSnapshot : RawSnapshot :=
  { stage := AppStage.meeting,
    state := { topic := some "UBI", agents := none, messages := some [],
               isActive := some true, isGenerating := some false,
               language := some Language.en },
    report := "", timestamp := 0 }

/-- C7 counterexample: restoring a stored snapshot that lacks the
`state.agents` field is NOT aborted — the snapshot's stage, state and report
are applied wholesale to the live session, the stored snapshot is not
discarded, and no user-visible notice is shown, contrary to the claim. -/
theorem malformed_snapshot_is_applied :
    (restoreSession (StoredBlob.parsed malformedSnapshot)).appliedState =
      some malformedSnapshot.state ∧
    malformedSnapshot.state.agents = none ∧
    (restoreSession (StoredBlob.parsed malformedSnapshot)).snapshotDiscarded = false ∧
    (restoreSession (StoredBlob.parsed malformedSnapshot)).noticeShown = false :=
  ⟨rfl, rfl, rfl, rfl⟩

/-- C7 amended: `restoreSession` validates nothing beyond JSON parsing.  A
blob that throws in `JSON.parse` aborts the restore with no fields applied
and shows the notice, but does not discard the stored snapshot; every blob
that parses — regardless of shape, e.g. with `state.agents` missing — has
its stage, state and report applied wholesale to the live session, with no
notice and no discard. -/
theorem restore_applies_any_parsed_shape (snap : RawSnapshot) :
    restoreSession StoredBlob.parseFailure =
      { appliedStage := none, appliedState := none, appliedReport := none,
        noticeShown := true, snapshotDiscarded := false } ∧
    restoreSession (StoredBlob.parsed snap) =
      { appliedStage := some snap.stage, appliedState := some snap.state,
        appliedReport := some snap.report, noticeShown := false,
        snapshotDiscarded := false } :=
  ⟨rfl, rfl⟩

/-! ## C1 — witness and counterexample -/

/-- A message mid-stream: the placeholder appended by a scheduler turn after
its first fragment "A" arrived. -/
def streamingMsg : Message :=
  { id := "100", senderId := "agent-1", senderName := "Alice",
    content := "A", thought := some "I should push back.",
    timestamp := 100, type := MsgType.speech }

/-- A user message submitted while the stream above is still running. -/
def userMidStream : Message :=
  { id := "101", senderId := "user", senderName := "Host / Moderator",
    content := "hello", thought := none, timestamp := 101,
    type := MsgType.speech }

/-- Witness instantiating the C1 invariant on a concrete transcript: the
entry before the last is untouched both by a mixed operation sequence and by
a single streaming update. -/
theorem frozen_prefix_invariant_witness :
    (applyOps [welcome0, streamingMsg]
      [MeetingOp.append userMidStream, MeetingOp.updateLast "AB"])[0]? =
      [welcome0, streamingMsg][0]? ∧
    (updateLastContent "X" [welcome0, streamingMsg])[0]? =
      [welcome0, streamingMsg][0]? :=
  frozen_prefix_invariant [welcome0, streamingMsg]
    [MeetingOp.append userMidStream, MeetingOp.updateLast "AB"]
    0 "X" 0 (by decide) (by decide)

/-- C1 counterexample: a user message appended mid-stream becomes the
most-recently-appended entry, so the next streaming update
(`updateLastMessage`, here with the accumulated content "AB") overwrites the
USER's message — a message other than the one the streaming turn itself
appended last (`streamingMsg`, which stays frozen with its partial
content "A").  This refutes the claim's "no update-streaming-content call
ever modifies any message other than the one the streaming turn itself
appended last". -/
theorem streaming_update_clobbers_user_message :
    applyOps [welcome0, streamingMsg]
      [MeetingOp.append userMidStream, MeetingOp.updateLast "AB"] =
      [welcome0, streamingMsg, { userMidStream with content := "AB" }] ∧
    userMidStream.content ≠ "AB" ∧
    userMidStream.senderId ≠ streamingMsg.senderId := by
  refine ⟨?_, by decide, by decide⟩
  rfl
